import Mathlib

/-
  Verification of the rasa-whatsapp-connector message adapter
  (src/rasa_whatsapp_connector/whatsapp.py), as a shallow embedding.

  JSON values handled by the Python code are modelled by the inductive
  type Json below.  The dynamic dictionary and list operations the code
  performs (membership test, length, subscription by string key, and
  subscription by index 0) are modelled faithfully, including the Python
  exceptions they can raise (KeyError, TypeError, IndexError) next to the
  ValueError the code raises itself.
-/

inductive Json where
  | null : Json
  | bool (b : Bool) : Json
  | num (n : Int) : Json
  | str (s : String) : Json
  | arr (elems : List Json) : Json
  | obj (fields : List (String × Json)) : Json

/-- First-match lookup in an association list of object fields, as a
Python dict lookup (JSON objects parsed by Python have unique keys). -/
def Json.lookup : List (String × Json) → String → Option Json
  | [], _ => none
  | (k, v) :: rest, key => if k = key then some v else Json.lookup rest key

/-- Python equality between a JSON value and a string literal: true
exactly when the value is that string. -/
def elemEqStr (k : String) : Json → Bool
  | .str s => decide (s = k)
  | _ => false

/-- Whether the first list is an initial segment of the second. -/
def listStartsWith : List Char → List Char → Bool
  | [], _ => true
  | _ :: _, [] => false
  | p :: ps, c :: cs => p == c && listStartsWith ps cs

/-- Whether the first list occurs contiguously inside the second. -/
def listOccurs (pat : List Char) : List Char → Bool
  | [] => listStartsWith pat []
  | c :: cs => listStartsWith pat (c :: cs) || listOccurs pat cs

/-- Python substring containment test, used by the in operator on str. -/
def strContains (s pat : String) : Bool :=
  listOccurs pat.data s.data

/-- The exceptions the inbound path can raise: KeyError, TypeError and
IndexError from dynamic subscription, and ValueError raised explicitly
by the code with a message. -/
inductive PyError where
  | keyError : PyError
  | typeError : PyError
  | indexError : PyError
  | valueError (msg : String) : PyError
deriving DecidableEq

/-- Python membership test k in j for a string k: key lookup on a dict,
element equality on a list, substring test on a str, TypeError on
anything else. -/
def pyContains (j : Json) (k : String) : Except PyError Bool :=
  match j with
  | .obj fields => .ok (Json.lookup fields k).isSome
  | .arr elems => .ok (elems.any (elemEqStr k))
  | .str s => .ok (strContains s k)
  | _ => .error .typeError

/-- Python len on a JSON value: defined on str, list and dict, TypeError
otherwise. -/
def pyLen (j : Json) : Except PyError Nat :=
  match j with
  | .str s => .ok s.length
  | .arr elems => .ok elems.length
  | .obj fields => .ok fields.length
  | _ => .error .typeError

/-- Python subscription j with a string key: dict lookup with KeyError on
a missing key, TypeError on a list, str or scalar. -/
def pyGetStr (j : Json) (k : String) : Except PyError Json :=
  match j with
  | .obj fields =>
    match Json.lookup fields k with
    | some v => .ok v
    | none => .error .keyError
  | _ => .error .typeError

/-- Python subscription j with index 0: first element of a list, first
character of a str, KeyError on a dict whose keys are strings, TypeError
on scalars, IndexError when empty. -/
def pyGetIdx0 (j : Json) : Except PyError Json :=
  match j with
  | .arr (x :: _) => .ok x
  | .arr [] => .error .indexError
  | .str s =>
    match s.data with
    | c :: _ => .ok (.str (String.mk [c]))
    | [] => .error .indexError
  | .obj _ => .error .keyError
  | _ => .error .typeError

/-- Python equality test between a JSON value and a string literal. -/
def jsonEqStr : Json → String → Bool
  | .str t, s => decide (t = s)
  | _, _ => false

/-- A button as supplied by the framework: a title of arbitrary length
and an opaque payload. -/
structure Button where
  title : String
  payload : String

/-- Default request timeout of the adapter. -/
def DEFAULT_WHATSAPP_API_TIMEOUT : Int := 10

/-- The adapter configuration held by the converter class. -/
structure RasaToWhatsappConverter where
  phone_identifier : String
  token : String
  graphql_api_version : String
  api_timeout : Int

/-- Embedding of prepare-button-message: up to three reply buttons, each
title cut to 20 characters. -/
def prepareButtonMessage (recipient text : String) (buttons : List Button) : Json :=
  Json.obj
    [("messaging_product", Json.str "whatsapp"),
     ("to", Json.str recipient),
     ("type", Json.str "interactive"),
     ("interactive", Json.obj
       [("type", Json.str "button"),
        ("body", Json.obj [("text", Json.str text)]),
        ("action", Json.obj
          [("buttons", Json.arr ((buttons.take 3).map fun b =>
            Json.obj
              [("type", Json.str "reply"),
               ("reply", Json.obj
                 [("id", Json.str b.payload),
                  ("title", Json.str (b.title.take 20))])]))])])]

/-- Embedding of prepare-list-message: up to ten rows, each title cut to
24 characters; the source has a default list name of Select which the
caller never overrides. -/
def prepareListMessage (recipient text : String) (buttons : List Button)
    (list_name : String) : Json :=
  Json.obj
    [("messaging_product", Json.str "whatsapp"),
     ("to", Json.str recipient),
     ("type", Json.str "interactive"),
     ("interactive", Json.obj
       [("type", Json.str "list"),
        ("body", Json.obj [("text", Json.str text)]),
        ("action", Json.obj
          [("button", Json.str list_name),
           ("sections", Json.arr
             [Json.obj
               [("title", Json.str list_name),
                ("rows", Json.arr ((buttons.take 10).map fun b =>
                  Json.obj
                    [("id", Json.str b.payload),
                     ("title", Json.str (b.title.take 24))]))]])])])]

/-- Embedding of prepare-text-message. -/
def prepareTextMessage (recipient text : String) : Json :=
  Json.obj
    [("messaging_product", Json.str "whatsapp"),
     ("to", Json.str recipient),
     ("text", Json.obj [("body", Json.str text)])]

/-- Embedding of prepare-message: a non-None buttons argument of length
at most 3 selects the button shape, longer lists the list shape, and an
absent buttons argument the plain text shape. -/
def prepare_message (recipient text : String) (buttons : Option (List Button)) :
    Json :=
  match buttons with
  | some bs =>
    if bs.length ≤ 3 then prepareButtonMessage recipient text bs
    else prepareListMessage recipient text bs "Select"
  | none => prepareTextMessage recipient text

/-- The method call seen with its receiver: it returns the prepared
message together with the converter state after the call, which the
source never mutates. -/
def prepare_messageS (c : RasaToWhatsappConverter) (recipient text : String)
    (buttons : Option (List Button)) : Json × RasaToWhatsappConverter :=
  (prepare_message recipient text buttons, c)

/-- Embedding of the private get-value helper: requires a non-empty entry
array, a non-empty changes array inside entry 0, and a value field inside
changes 0, raising ValueError with the message the source uses at each
failing stage; the dynamic subscriptions can themselves raise. -/
def getValue (data : Json) : Except PyError Json :=
  match pyContains data "entry" with
  | .error e => .error e
  | .ok hasEntry =>
    if hasEntry then
      match pyGetStr data "entry" with
      | .error e => .error e
      | .ok entryVal =>
        match pyLen entryVal with
        | .error e => .error e
        | .ok n =>
          if n = 0 then .error (.valueError "Provided data is invalid!")
          else
            match pyGetIdx0 entryVal with
            | .error e => .error e
            | .ok entry =>
              match pyContains entry "changes" with
              | .error e => .error e
              | .ok hasChanges =>
                if hasChanges then
                  match pyGetStr entry "changes" with
                  | .error e => .error e
                  | .ok changesVal =>
                    match pyLen changesVal with
                    | .error e => .error e
                    | .ok nc =>
                      if nc = 0 then
                        .error (.valueError "Provided data is invalid!")
                      else
                        match pyGetIdx0 changesVal with
                        | .error e => .error e
                        | .ok change =>
                          match pyContains change "value" with
                          | .error e => .error e
                          | .ok hasValue =>
                            if hasValue then pyGetStr change "value"
                            else
                              .error
                                (.valueError "Provided data is invalid!")
                else .error (.valueError "Provided data is invalid!")
    else .error (.valueError "Provided data is invalid!")

/-- The try block of the hook parser: reads the sender, then resolves
the text according to the message type, leaving it unset when no branch
matches.  Any exception from the subscriptions propagates out. -/
def tryBlock (m : Json) : Except PyError (Json × Option Json) :=
  match pyGetStr m "from" with
  | .error e => .error e
  | .ok sender =>
    match pyGetStr m "type" with
    | .error e => .error e
    | .ok ty =>
      if jsonEqStr ty "text" then
        match pyGetStr m "text" with
        | .error e => .error e
        | .ok t =>
          match pyGetStr t "body" with
          | .error e => .error e
          | .ok b => .ok (sender, some b)
      else
        if jsonEqStr ty "interactive" then
          match pyGetStr m "interactive" with
          | .error e => .error e
          | .ok inter =>
            match pyGetStr inter "type" with
            | .error e => .error e
            | .ok ity =>
              if jsonEqStr ity "button_reply" then
                match pyGetStr inter "button_reply" with
                | .error e => .error e
                | .ok br =>
                  match pyGetStr br "id" with
                  | .error e => .error e
                  | .ok i => .ok (sender, some i)
              else
                if jsonEqStr ity "list_reply" then
                  match pyGetStr inter "list_reply" with
                  | .error e => .error e
                  | .ok lr =>
                    match pyGetStr lr "id" with
                    | .error e => .error e
                    | .ok i => .ok (sender, some i)
                else .ok (sender, none)
        else .ok (sender, none)

/-- The value returned on success by the hook parser: a mapping with
exactly the keys sender_id, text and metadata. -/
structure ParsedMessage where
  sender_id : Json
  text : Json
  metadata : Json

/-- Tail of the hook parser after the first message has been isolated:
a KeyError from the try block is converted into a ValueError, other
exceptions propagate, an unset text raises ValueError, and otherwise
the normalized mapping is returned with an empty metadata mapping. -/
def parseHookMessage (m : Json) : Except PyError ParsedMessage :=
  match tryBlock m with
  | .error .keyError => .error (.valueError "Provided data is invalid!")
  | .error .typeError => .error .typeError
  | .error .indexError => .error .indexError
  | .error (.valueError s) => .error (.valueError s)
  | .ok (_, none) => .error (.valueError "Provided data is invalid!")
  | .ok (sender, some textVal) =>
    .ok { sender_id := sender, text := textVal, metadata := Json.obj [] }

/-- Embedding of get-message-from-whatsapp-hook: runs the get-value
helper, requires a non-empty messages array inside it, and parses its
first message. -/
def get_message_from_whatsapp_hook (data : Json) :
    Except PyError ParsedMessage :=
  match getValue data with
  | .error e => .error e
  | .ok value =>
    match pyContains value "messages" with
    | .error e => .error e
    | .ok hasMessages =>
      if hasMessages then
        match pyGetStr value "messages" with
        | .error e => .error e
        | .ok msgs =>
          match pyLen msgs with
          | .error e => .error e
          | .ok n =>
            if n = 0 then .error (.valueError "Provided value is invalid")
            else
              match pyGetIdx0 msgs with
              | .error e => .error e
              | .ok m => parseHookMessage m
      else .error (.valueError "Provided value is invalid")

/-- Field of a JSON object, none when the value is not an object or the
key is absent.  Describes a well-formed step of the webhook path. -/
def objField (j : Json) (k : String) : Option Json :=
  match j with
  | .obj fields => Json.lookup fields k
  | _ => none

/-- First element of a JSON array, none otherwise. -/
def firstElem (j : Json) : Option Json :=
  match j with
  | .arr (x :: _) => some x
  | _ => none

/-- The well-formed traversal down to the value object of a webhook
payload: entry 0, changes 0, value. -/
def pathValue (data : Json) : Option Json :=
  (objField data "entry").bind fun e =>
    (firstElem e).bind fun e0 =>
      (objField e0 "changes").bind fun c =>
        (firstElem c).bind fun c0 => objField c0 "value"

/-- The well-formed traversal down to the first inbound message of a
webhook payload. -/
def pathMessage (data : Json) : Option Json :=
  (pathValue data).bind fun v =>
    (objField v "messages").bind fun ms => firstElem ms

/-- Test-data builder: the minimal webhook payload that carries the
given value as its only inbound message. -/
def wrapPayload (m : Json) : Json :=
  Json.obj
    [("entry", Json.arr
      [Json.obj
        [("changes", Json.arr
          [Json.obj
            [("value", Json.obj [("messages", Json.arr [m])])]])]])]

/-- Concrete inbound text message used in the round-trip example. -/
def textDemoMessage : Json :=
  Json.obj
    [("from", Json.str "123"), ("type", Json.str "text"),
     ("text", Json.obj [("body", Json.str "hi")])]

/-- Concrete inbound button-reply message. -/
def buttonReplyDemoMessage : Json :=
  Json.obj
    [("from", Json.str "77"), ("type", Json.str "interactive"),
     ("interactive", Json.obj
       [("type", Json.str "button_reply"),
        ("button_reply", Json.obj [("id", Json.str "OPT_A")])])]

/-- Concrete inbound list-reply message. -/
def listReplyDemoMessage : Json :=
  Json.obj
    [("from", Json.str "88"), ("type", Json.str "interactive"),
     ("interactive", Json.obj
       [("type", Json.str "list_reply"),
        ("list_reply", Json.obj [("id", Json.str "OPT_B")])])]

/-- Concrete inbound interactive message whose interactive type is
neither a button reply nor a list reply. -/
def weirdInteractiveDemoMessage : Json :=
  Json.obj
    [("from", Json.str "1"), ("type", Json.str "interactive"),
     ("interactive", Json.obj [("type", Json.str "nonsense_reply")])]

/-- Concrete inbound message of an unrecognized plain type. -/
def videoDemoMessage : Json :=
  Json.obj [("from", Json.str "2"), ("type", Json.str "video")]

/-- A payload whose entry field is a dict rather than an array: the
source subscripts it with index 0 outside any exception handler. -/
def entryDictPayload : Json :=
  Json.obj [("entry", Json.obj [("x", Json.num 1)])]

/-- A successful object-field step exposes the object structure. -/
theorem objField_some (j : Json) (k : String) (v : Json)
    (h : objField j k = some v) :
    ∃ fs, j = Json.obj fs ∧ Json.lookup fs k = some v := by
  cases j <;> first
    | exact ⟨_, rfl, h⟩
    | simp [objField] at h

/-- A successful first-element step exposes the array structure. -/
theorem firstElem_some (j x : Json) (h : firstElem j = some x) :
    ∃ xs, j = Json.arr (x :: xs) := by
  cases j with
  | arr elems =>
    cases elems with
    | nil => exact absurd h (by simp [firstElem])
    | cons a l =>
      have ha : a = x := by simpa [firstElem] using h
      exact ⟨l, by rw [ha]⟩
  | null => exact absurd h (by simp [firstElem])
  | bool b => exact absurd h (by simp [firstElem])
  | num n => exact absurd h (by simp [firstElem])
  | str s => exact absurd h (by simp [firstElem])
  | obj fields => exact absurd h (by simp [firstElem])

/-- A successful object-field step makes the Python subscription
succeed with the same value. -/
theorem objField_pyGetStr (j : Json) (k : String) (v : Json)
    (h : objField j k = some v) : pyGetStr j k = .ok v := by
  obtain ⟨fs, rfl, hl⟩ := objField_some j k v h
  simp [pyGetStr, hl]

/-- On a payload whose entry-changes-value path is well formed, the
get-value helper returns exactly the value object at the end of the
path. -/
theorem getValue_of_path (data v : Json) (h : pathValue data = some v) :
    getValue data = .ok v := by
  simp only [pathValue, Option.bind_eq_some] at h
  obtain ⟨e, he, e0, he0, c, hc, c0, hc0, hv⟩ := h
  obtain ⟨dfs, rfl, hde⟩ := objField_some _ _ _ he
  obtain ⟨et, rfl⟩ := firstElem_some _ _ he0
  obtain ⟨efs, rfl, hec⟩ := objField_some _ _ _ hc
  obtain ⟨ct, rfl⟩ := firstElem_some _ _ hc0
  obtain ⟨cfs, rfl, hcv⟩ := objField_some _ _ _ hv
  simp [getValue, pyContains, pyGetStr, pyLen, pyGetIdx0, hde, hec, hcv]

/-- On a payload whose whole path down to the first message is well
formed, the hook parser is exactly the message-level parser applied to
that first message. -/
theorem hook_of_path (data m : Json) (h : pathMessage data = some m) :
    get_message_from_whatsapp_hook data = parseHookMessage m := by
  simp only [pathMessage, Option.bind_eq_some] at h
  obtain ⟨v, hv, ms, hms, hfe⟩ := h
  obtain ⟨vfs, rfl, hvm⟩ := objField_some _ _ _ hms
  obtain ⟨mt, rfl⟩ := firstElem_some _ _ hfe
  have hgv := getValue_of_path data _ hv
  simp [get_message_from_whatsapp_hook, hgv, pyContains, pyGetStr, pyLen,
    pyGetIdx0, hvm]

/-- C1: for every recipient, text, and buttons list of length at most 3,
prepare-message returns the button-interactive wire shape, with the
interactive body text equal to the text and with exactly one reply entry
per button, in order, carrying the button payload as id and the first 20
characters of the button title. -/
theorem claim_C1_button_message_shape (recipient text : String)
    (bs : List Button) (h : bs.length ≤ 3) :
    prepare_message recipient text (some bs) =
      Json.obj
        [("messaging_product", Json.str "whatsapp"),
         ("to", Json.str recipient),
         ("type", Json.str "interactive"),
         ("interactive", Json.obj
           [("type", Json.str "button"),
            ("body", Json.obj [("text", Json.str text)]),
            ("action", Json.obj
              [("buttons", Json.arr (bs.map fun b =>
                Json.obj
                  [("type", Json.str "reply"),
                   ("reply", Json.obj
                     [("id", Json.str b.payload),
                      ("title", Json.str (b.title.take 20))])]))])])] := by
  simp [prepare_message, prepareButtonMessage, if_pos h,
    List.take_of_length_le h]

set_option maxRecDepth 8000 in
/-- C1 witness: two concrete buttons, the first with a 23-character
title that is cut to its first 20 characters. -/
theorem claim_C1_witness :
    ([⟨"12345678901234567890123", "/p1"⟩, ⟨"Yes", "/yes"⟩] :
        List Button).length ≤ 3 ∧
    prepare_message "555" "pick one"
        (some [⟨"12345678901234567890123", "/p1"⟩, ⟨"Yes", "/yes"⟩]) =
      Json.obj
        [("messaging_product", Json.str "whatsapp"),
         ("to", Json.str "555"),
         ("type", Json.str "interactive"),
         ("interactive", Json.obj
           [("type", Json.str "button"),
            ("body", Json.obj [("text", Json.str "pick one")]),
            ("action", Json.obj
              [("buttons", Json.arr
                [Json.obj
                  [("type", Json.str "reply"),
                   ("reply", Json.obj
                     [("id", Json.str "/p1"),
                      ("title", Json.str "12345678901234567890")])],
                 Json.obj
                  [("type", Json.str "reply"),
                   ("reply", Json.obj
                     [("id", Json.str "/yes"),
                      ("title", Json.str "Yes")])]])])])] :=
  ⟨by decide, claim_C1_button_message_shape "555" "pick one" _ (by decide)⟩

/-- C2: for every recipient, text, and buttons list of length greater
than 3, prepare-message returns the list-interactive wire shape, with
the interactive body text equal to the text, the action button label
Select, and a single section titled Select whose rows are the first
min of the length and 10 buttons in order, each carrying the button
payload as id and the first 24 characters of the button title; buttons
beyond the tenth are dropped. -/
theorem claim_C2_list_message_shape (recipient text : String)
    (bs : List Button) (h : 3 < bs.length) :
    prepare_message recipient text (some bs) =
      Json.obj
        [("messaging_product", Json.str "whatsapp"),
         ("to", Json.str recipient),
         ("type", Json.str "interactive"),
         ("interactive", Json.obj
           [("type", Json.str "list"),
            ("body", Json.obj [("text", Json.str text)]),
            ("action", Json.obj
              [("button", Json.str "Select"),
               ("sections", Json.arr
                 [Json.obj
                   [("title", Json.str "Select"),
                    ("rows", Json.arr ((bs.take 10).map fun b =>
                      Json.obj
                        [("id", Json.str b.payload),
                         ("title", Json.str (b.title.take 24))]))]])])])] := by
  have hn : ¬ bs.length ≤ 3 := by omega
  simp [prepare_message, prepareListMessage, if_neg hn]

set_option maxRecDepth 8000 in
/-- C2 witness: four concrete buttons, the first with a 27-character
title that is cut to its first 24 characters. -/
theorem claim_C2_witness :
    3 < ([⟨"123456789012345678901234567", "/a"⟩, ⟨"B", "/b"⟩,
          ⟨"C", "/c"⟩, ⟨"D", "/d"⟩] : List Button).length ∧
    prepare_message "999" "choose"
        (some [⟨"123456789012345678901234567", "/a"⟩, ⟨"B", "/b"⟩,
               ⟨"C", "/c"⟩, ⟨"D", "/d"⟩]) =
      Json.obj
        [("messaging_product", Json.str "whatsapp"),
         ("to", Json.str "999"),
         ("type", Json.str "interactive"),
         ("interactive", Json.obj
           [("type", Json.str "list"),
            ("body", Json.obj [("text", Json.str "choose")]),
            ("action", Json.obj
              [("button", Json.str "Select"),
               ("sections", Json.arr
                 [Json.obj
                   [("title", Json.str "Select"),
                    ("rows", Json.arr
                      [Json.obj [("id", Json.str "/a"),
                        ("title", Json.str "123456789012345678901234")],
                       Json.obj [("id", Json.str "/b"),
                        ("title", Json.str "B")],
                       Json.obj [("id", Json.str "/c"),
                        ("title", Json.str "C")],
                       Json.obj [("id", Json.str "/d"),
                        ("title", Json.str "D")]])]])])])] :=
  ⟨by decide, claim_C2_list_message_shape "999" "choose" _ (by decide)⟩

/-- C3: for every recipient and text, prepare-message with an absent
buttons argument returns exactly the plain-text wire shape, whose body
is the text unchanged and which has no interactive fields. -/
theorem claim_C3_text_message_shape (recipient text : String) :
    prepare_message recipient text none =
      Json.obj
        [("messaging_product", Json.str "whatsapp"),
         ("to", Json.str recipient),
         ("text", Json.obj [("body", Json.str text)])] := rfl

/-- C7: for every recipient and text, prepare-message with an empty but
present buttons list returns the button-interactive shape with zero
reply buttons, and in particular not the plain-text shape: presence of
the buttons argument, not its length, selects the interactive path. -/
theorem claim_C7_empty_buttons (recipient text : String) :
    prepare_message recipient text (some []) =
      Json.obj
        [("messaging_product", Json.str "whatsapp"),
         ("to", Json.str recipient),
         ("type", Json.str "interactive"),
         ("interactive", Json.obj
           [("type", Json.str "button"),
            ("body", Json.obj [("text", Json.str text)]),
            ("action", Json.obj [("buttons", Json.arr [])])])] ∧
    prepare_message recipient text (some []) ≠
      prepare_message recipient text none := by
  refine ⟨rfl, fun h => ?_⟩
  simp [prepare_message, prepareButtonMessage, prepareTextMessage] at h

/-- C8: the outbound preparation is total and pure: for every converter
state, recipient, text, and buttons argument it leaves the converter
configuration unchanged, its result does not depend on the converter
configuration at all, and it always produces one of the three wire
shapes, with oversized button lists truncated by the shape builders
rather than rejected.  Buttons are modelled by the Button record of the
data model, carrying a title and a payload. -/
theorem claim_C8_totality_purity (c c' : RasaToWhatsappConverter)
    (recipient text : String) (buttons : Option (List Button)) :
    (prepare_messageS c recipient text buttons).2 = c ∧
    (prepare_messageS c recipient text buttons).1 =
      (prepare_messageS c' recipient text buttons).1 ∧
    ((prepare_messageS c recipient text buttons).1 =
        prepareTextMessage recipient text ∨
      ∃ bs, buttons = some bs ∧
        ((prepare_messageS c recipient text buttons).1 =
            prepareButtonMessage recipient text bs ∨
         (prepare_messageS c recipient text buttons).1 =
            prepareListMessage recipient text bs "Select")) := by
  refine ⟨rfl, rfl, ?_⟩
  cases buttons with
  | none => exact Or.inl rfl
  | some bs =>
    refine Or.inr ⟨bs, rfl, ?_⟩
    by_cases h : bs.length ≤ 3
    · exact Or.inl (by simp [prepare_messageS, prepare_message, if_pos h])
    · exact Or.inr (by simp [prepare_messageS, prepare_message, if_neg h])

/-- C4: for every payload whose path down to the first message is well
formed and whose first message carries a from field, the hook returns
the normalized mapping with the sender, the resolved text, and an empty
metadata mapping, where the text is the text body for a text message,
the button-reply id for a button reply, and the list-reply id for a
list reply. -/
theorem claim_C4_inbound_parse (data m sender : Json)
    (hpath : pathMessage data = some m)
    (hfrom : objField m "from" = some sender) :
    (∀ t b, objField m "type" = some (Json.str "text") →
      objField m "text" = some t → objField t "body" = some b →
      get_message_from_whatsapp_hook data =
        .ok { sender_id := sender, text := b, metadata := Json.obj [] }) ∧
    (∀ inter br i, objField m "type" = some (Json.str "interactive") →
      objField m "interactive" = some inter →
      objField inter "type" = some (Json.str "button_reply") →
      objField inter "button_reply" = some br →
      objField br "id" = some i →
      get_message_from_whatsapp_hook data =
        .ok { sender_id := sender, text := i, metadata := Json.obj [] }) ∧
    (∀ inter lr i, objField m "type" = some (Json.str "interactive") →
      objField m "interactive" = some inter →
      objField inter "type" = some (Json.str "list_reply") →
      objField inter "list_reply" = some lr →
      objField lr "id" = some i →
      get_message_from_whatsapp_hook data =
        .ok { sender_id := sender, text := i, metadata := Json.obj [] }) := by
  rw [hook_of_path data m hpath]
  have hf := objField_pyGetStr _ _ _ hfrom
  refine ⟨?_, ?_, ?_⟩
  · intro t b hty ht hb
    have h1 := objField_pyGetStr _ _ _ hty
    have h2 := objField_pyGetStr _ _ _ ht
    have h3 := objField_pyGetStr _ _ _ hb
    simp [parseHookMessage, tryBlock, hf, h1, h2, h3, jsonEqStr]
  · intro inter br i hty hint hity hbr hid
    have h1 := objField_pyGetStr _ _ _ hty
    have h2 := objField_pyGetStr _ _ _ hint
    have h3 := objField_pyGetStr _ _ _ hity
    have h4 := objField_pyGetStr _ _ _ hbr
    have h5 := objField_pyGetStr _ _ _ hid
    simp [parseHookMessage, tryBlock, hf, h1, h2, h3, h4, h5, jsonEqStr]
  · intro inter lr i hty hint hity hlr hid
    have h1 := objField_pyGetStr _ _ _ hty
    have h2 := objField_pyGetStr _ _ _ hint
    have h3 := objField_pyGetStr _ _ _ hity
    have h4 := objField_pyGetStr _ _ _ hlr
    have h5 := objField_pyGetStr _ _ _ hid
    simp [parseHookMessage, tryBlock, hf, h1, h2, h3, h4, h5, jsonEqStr]

/-- C4 witness: the three recognized inbound shapes on concrete
payloads, including the round-trip example with sender 123 and text
hi. -/
theorem claim_C4_witness :
    get_message_from_whatsapp_hook (wrapPayload textDemoMessage) =
      .ok { sender_id := Json.str "123", text := Json.str "hi",
            metadata := Json.obj [] } ∧
    get_message_from_whatsapp_hook (wrapPayload buttonReplyDemoMessage) =
      .ok { sender_id := Json.str "77", text := Json.str "OPT_A",
            metadata := Json.obj [] } ∧
    get_message_from_whatsapp_hook (wrapPayload listReplyDemoMessage) =
      .ok { sender_id := Json.str "88", text := Json.str "OPT_B",
            metadata := Json.obj [] } :=
  ⟨(claim_C4_inbound_parse (wrapPayload textDemoMessage) textDemoMessage
      (Json.str "123") rfl rfl).1
      (Json.obj [("body", Json.str "hi")]) (Json.str "hi") rfl rfl rfl,
   (claim_C4_inbound_parse (wrapPayload buttonReplyDemoMessage)
      buttonReplyDemoMessage (Json.str "77") rfl rfl).2.1
      (Json.obj
        [("type", Json.str "button_reply"),
         ("button_reply", Json.obj [("id", Json.str "OPT_A")])])
      (Json.obj [("id", Json.str "OPT_A")]) (Json.str "OPT_A")
      rfl rfl rfl rfl rfl,
   (claim_C4_inbound_parse (wrapPayload listReplyDemoMessage)
      listReplyDemoMessage (Json.str "88") rfl rfl).2.2
      (Json.obj
        [("type", Json.str "list_reply"),
         ("list_reply", Json.obj [("id", Json.str "OPT_B")])])
      (Json.obj [("id", Json.str "OPT_B")]) (Json.str "OPT_B")
      rfl rfl rfl rfl rfl⟩

/-- C10: the parse outcome depends only on the first message along the
fixed path: two payloads whose well-formed paths reach the same first
message produce identical outcomes, whatever else they contain. -/
theorem claim_C10_first_element_only (d1 d2 m : Json)
    (h1 : pathMessage d1 = some m) (h2 : pathMessage d2 = some m) :
    get_message_from_whatsapp_hook d1 = get_message_from_whatsapp_hook d2 := by
  rw [hook_of_path d1 m h1, hook_of_path d2 m h2]

/-- C10 witness: the minimal payload around the demo text message and a
payload with a second entry, a second change, a second message, and
extra fields everywhere produce the same outcome. -/
theorem claim_C10_witness :
    get_message_from_whatsapp_hook (wrapPayload textDemoMessage) =
      get_message_from_whatsapp_hook
        (Json.obj
          [("object", Json.str "whatsapp_business_account"),
           ("entry", Json.arr
             [Json.obj
               [("id", Json.str "E1"),
                ("changes", Json.arr
                  [Json.obj
                    [("field", Json.str "messages"),
                     ("value", Json.obj
                       [("contacts", Json.arr []),
                        ("messages", Json.arr
                          [textDemoMessage, videoDemoMessage])])],
                   Json.obj []])],
              Json.obj [("id", Json.str "E2")]])]) :=
  claim_C10_first_element_only _ _ textDemoMessage rfl rfl

/-- C5 counterexample: on the payload with no entry field the hook does
fail, but the ValueError it raises carries the fixed source message, not
the description quoted by the claim. -/
theorem claim_C5_counterexample :
    get_message_from_whatsapp_hook (Json.obj []) =
      .error (.valueError "Provided data is invalid!") ∧
    "Provided data is invalid!" ≠ "invalid: missing entry" :=
  ⟨rfl, by decide⟩

/-- C5 amended: for each missing or empty required path segment the hook
fails with a ValueError, but its description is one of two fixed generic
strings from the source rather than a description of what was missing:
a missing or empty entry array, a missing or empty changes array, and a
missing value field all yield the message that the provided data is
invalid, while a missing or empty messages array yields the message that
the provided value is invalid. -/
theorem claim_C5_amended_errors :
    (∀ dfs, (Json.lookup dfs "entry" = none ∨
        Json.lookup dfs "entry" = some (Json.arr [])) →
      get_message_from_whatsapp_hook (Json.obj dfs) =
        .error (.valueError "Provided data is invalid!")) ∧
    (∀ dfs efs r, Json.lookup dfs "entry" =
        some (Json.arr (Json.obj efs :: r)) →
      (Json.lookup efs "changes" = none ∨
        Json.lookup efs "changes" = some (Json.arr [])) →
      get_message_from_whatsapp_hook (Json.obj dfs) =
        .error (.valueError "Provided data is invalid!")) ∧
    (∀ dfs efs cfs r1 r2, Json.lookup dfs "entry" =
        some (Json.arr (Json.obj efs :: r1)) →
      Json.lookup efs "changes" = some (Json.arr (Json.obj cfs :: r2)) →
      Json.lookup cfs "value" = none →
      get_message_from_whatsapp_hook (Json.obj dfs) =
        .error (.valueError "Provided data is invalid!")) ∧
    (∀ data vfs, pathValue data = some (Json.obj vfs) →
      (Json.lookup vfs "messages" = none ∨
        Json.lookup vfs "messages" = some (Json.arr [])) →
      get_message_from_whatsapp_hook data =
        .error (.valueError "Provided value is invalid")) := by
  refine ⟨?_, ?_, ?_, ?_⟩
  · rintro dfs (h | h) <;>
      simp [get_message_from_whatsapp_hook, getValue, pyContains, pyGetStr,
        pyLen, pyGetIdx0, h]
  · rintro dfs efs r he (h | h) <;>
      simp [get_message_from_whatsapp_hook, getValue, pyContains, pyGetStr,
        pyLen, pyGetIdx0, he, h]
  · intro dfs efs cfs r1 r2 he hc hv
    simp [get_message_from_whatsapp_hook, getValue, pyContains, pyGetStr,
      pyLen, pyGetIdx0, he, hc, hv]
  · intro data vfs hp hm
    have hg := getValue_of_path data _ hp
    rcases hm with h | h <;>
      simp [get_message_from_whatsapp_hook, hg, pyContains, pyGetStr,
        pyLen, pyGetIdx0, h]

/-- C5 witness: one concrete payload for each failing stage, in order an
empty entry array, an entry without changes, a change without value, and
a value without messages. -/
theorem claim_C5_witness :
    get_message_from_whatsapp_hook (Json.obj [("entry", Json.arr [])]) =
      .error (.valueError "Provided data is invalid!") ∧
    get_message_from_whatsapp_hook
        (Json.obj [("entry", Json.arr [Json.obj []])]) =
      .error (.valueError "Provided data is invalid!") ∧
    get_message_from_whatsapp_hook
        (Json.obj [("entry", Json.arr
          [Json.obj [("changes", Json.arr [Json.obj []])]])]) =
      .error (.valueError "Provided data is invalid!") ∧
    get_message_from_whatsapp_hook
        (Json.obj [("entry", Json.arr
          [Json.obj [("changes", Json.arr
            [Json.obj [("value", Json.obj [])]])]])]) =
      .error (.valueError "Provided value is invalid") :=
  ⟨claim_C5_amended_errors.1 _ (Or.inr rfl),
   claim_C5_amended_errors.2.1 _ [] [] rfl (Or.inl rfl),
   claim_C5_amended_errors.2.2.1 _ _ [] [] [] rfl rfl rfl,
   claim_C5_amended_errors.2.2.2 _ [] rfl (Or.inl rfl)⟩

/-- C6 counterexample: an interactive payload with an unrecognized
interactive type does fail, but the ValueError carries the fixed source
message, not the description quoted by the claim. -/
theorem claim_C6_counterexample :
    get_message_from_whatsapp_hook (wrapPayload weirdInteractiveDemoMessage) =
      .error (.valueError "Provided data is invalid!") ∧
    "Provided data is invalid!" ≠ "invalid data" :=
  ⟨rfl, by decide⟩

/-- C6 amended: whenever the first message passes the path validation
and its type or shape resolves no text, so that the text remains unset,
the hook fails with a ValueError carrying the fixed message that the
provided data is invalid, and no partial result is returned. -/
theorem claim_C6_amended_unrecognized (data m sender : Json)
    (hpath : pathMessage data = some m)
    (hunset : tryBlock m = .ok (sender, none)) :
    get_message_from_whatsapp_hook data =
      .error (.valueError "Provided data is invalid!") := by
  rw [hook_of_path data m hpath]
  simp [parseHookMessage, hunset]

/-- C6 witness: the unrecognized plain type video, whose try block
resolves the sender but leaves the text unset. -/
theorem claim_C6_witness :
    get_message_from_whatsapp_hook (wrapPayload videoDemoMessage) =
      .error (.valueError "Provided data is invalid!") :=
  claim_C6_amended_unrecognized _ _ (Json.str "2") rfl rfl

/-- The message-level parser converts every KeyError of the try block
into a ValueError, so it never raises a KeyError itself. -/
theorem parseHook_no_keyError (m : Json) :
    parseHookMessage m ≠ .error PyError.keyError := by
  unfold parseHookMessage
  split
  all_goals intro h
  all_goals first
    | exact Except.noConfusion h
    | (injection h with h2; exact PyError.noConfusion h2)

/-- Every success of the message-level parser carries an empty metadata
mapping. -/
theorem parseHook_ok_metadata (m : Json) (r : ParsedMessage)
    (h : parseHookMessage m = .ok r) : r.metadata = Json.obj [] := by
  unfold parseHookMessage at h
  split at h
  all_goals first
    | exact Except.noConfusion h
    | (injection h with h2; rw [← h2])

/-- C9 counterexample: on a payload whose entry field is a dict, the
index-0 subscription in the path traversal raises a KeyError that is
outside the exception handler, so the hook neither returns a mapping nor
raises a ValueError. -/
theorem claim_C9_counterexample :
    get_message_from_whatsapp_hook entryDictPayload =
      .error PyError.keyError ∧
    PyError.keyError ≠ PyError.valueError "Provided data is invalid!" :=
  ⟨rfl, by decide⟩

/-- C9 amended: the hook never returns None or a partial mapping: every
successful return is the full mapping with sender, text and an empty
metadata mapping, and a KeyError arising inside the message-field
extraction block is always converted into a ValueError; however, a
KeyError or TypeError raised by the path traversal before that block,
as on a payload whose entry field is a dict, escapes unconverted. -/
theorem claim_C9_amended_full_mapping :
    (∀ data r, get_message_from_whatsapp_hook data = .ok r →
      r.metadata = Json.obj []) ∧
    (∀ m, parseHookMessage m ≠ .error PyError.keyError) := by
  constructor
  · intro data r h
    unfold get_message_from_whatsapp_hook at h
    repeat' split at h
    all_goals first
      | exact Except.noConfusion h
      | exact parseHook_ok_metadata _ _ h
  · exact parseHook_no_keyError

/-- C9 witness: the round-trip payload returns a mapping with empty
metadata, and the message-level parser of a scalar message is not a
KeyError. -/
theorem claim_C9_witness :
    ({ sender_id := Json.str "123", text := Json.str "hi",
       metadata := Json.obj [] } : ParsedMessage).metadata =
      Json.obj [] ∧
    parseHookMessage (Json.num 0) ≠ .error PyError.keyError :=
  ⟨claim_C9_amended_full_mapping.1 (wrapPayload textDemoMessage) _ rfl,
   claim_C9_amended_full_mapping.2 (Json.num 0)⟩
